import Mathlib

/-!
Verification of the Bangadeniya attendance scanner core.

Shallow embedding of the scan-to-record pipeline of
`src/components/QRScanner.tsx` (two parallel scanner implementations live
in that file: the primary one starting at line 39 and a fallback one
starting at line 1254), and of the `FeedbackSystem` class of the guidance
module.  Timestamps are epoch milliseconds modelled as `Int` (JavaScript
number arithmetic on integral millisecond values is exact); fractional
hour values are modelled as `Rat`.
-/

/-- `SCAN_COOLDOWN = 2000` ms between scans of the same code (line 60). -/
def SCAN_COOLDOWN : Int := 2000

/-- `CHECKOUT_TO_CHECKIN_COOLDOWN = 3 * 60 * 1000` ms (line 61). -/
def CHECKOUT_TO_CHECKIN_COOLDOWN : Int := 3 * 60 * 1000

/-- `COOLDOWN_PERIODS.CHECKIN_TO_CHECKOUT = 3 * 60 * 1000` ms of the
fallback implementation (line 1245). -/
def CHECKIN_TO_CHECKOUT_COOLDOWN : Int := 3 * 60 * 1000

/-- `MIN_LIGHT_LEVEL = 5` (line 63). -/
def MIN_LIGHT_LEVEL : Rat := 5

/-- A row of `attendance_records`: the four nullable phase timestamps and
the derived `total_hours` column.  A `null` column is `none`; a set column
is `some` of its epoch-millisecond value. -/
structure AttendanceRecord where
  first_check_in : Option Int
  first_check_out : Option Int
  second_check_in : Option Int
  second_check_out : Option Int
  total_hours : Option Rat
  deriving Repr, DecidableEq

/-- The `AttendanceValidation` interface (lines 31-37). -/
structure AttendanceValidation where
  isValid : Bool
  nextAction : String
  errorMessage : Option String
  cooldownRemaining : Option Int
  canProceed : Bool
  deriving Repr, DecidableEq

/-- `Math.ceil(a / b)` for integers `a`, `b` with `b > 0`: JavaScript
divides as reals and takes the ceiling. -/
def ceilDiv (a b : Int) : Int := -((-a).fdiv b)

/-- The cooldown rejection message built at lines 391-397:
`remainingMinutes = Math.ceil(cooldownRemaining / 60000)` and
`remainingSeconds = Math.ceil((cooldownRemaining % 60000) / 1000)`
(for the positive operands occurring here, JavaScript `%` is `Int.emod`). -/
def cooldownMessage (cooldownRemaining : Int) : String :=
  let remainingMinutes := ceilDiv cooldownRemaining (60 * 1000)
  let remainingSeconds := ceilDiv (cooldownRemaining.emod (60 * 1000)) 1000
  s!"Cooldown period active. Please wait {remainingMinutes}m {remainingSeconds}s before checking in again."

/-- Pure core of `validateAttendanceSequence` (lines 346-447).  The store
read of today's record is passed in as `fetchResult`: `.error ()` models a
thrown/transient store failure (the `catch` branch), `.ok none` the absence
of a record and `.ok (some a)` the fetched row.  JavaScript truthiness of a
nullable timestamp column is `Option.isSome`. -/
def validateAttendanceSequence (fetchResult : Except Unit (Option AttendanceRecord))
    (now : Int) : AttendanceValidation :=
  match fetchResult with
  | .error _ =>
      { isValid := false, nextAction := "error",
        errorMessage := some "Error validating attendance. Please try again.",
        cooldownRemaining := none, canProceed := false }
  | .ok none =>
      { isValid := true, nextAction := "first_check_in", errorMessage := none,
        cooldownRemaining := none, canProceed := true }
  | .ok (some attendance) =>
      if attendance.first_check_in.isSome && !attendance.first_check_out.isSome then
        { isValid := true, nextAction := "first_check_out", errorMessage := none,
          cooldownRemaining := none, canProceed := true }
      else if attendance.first_check_in.isSome && attendance.first_check_out.isSome
          && !attendance.second_check_in.isSome then
        let firstCheckOutTime := attendance.first_check_out.getD 0
        let timeSinceCheckOut := now - firstCheckOutTime
        let cooldownRemaining := CHECKOUT_TO_CHECKIN_COOLDOWN - timeSinceCheckOut
        if timeSinceCheckOut < CHECKOUT_TO_CHECKIN_COOLDOWN then
          { isValid := false, nextAction := "second_check_in",
            errorMessage := some (cooldownMessage cooldownRemaining),
            cooldownRemaining := some cooldownRemaining, canProceed := false }
        else
          { isValid := true, nextAction := "second_check_in", errorMessage := none,
            cooldownRemaining := none, canProceed := true }
      else if attendance.second_check_in.isSome && !attendance.second_check_out.isSome then
        { isValid := true, nextAction := "second_check_out", errorMessage := none,
          cooldownRemaining := none, canProceed := true }
      else if attendance.second_check_out.isSome then
        { isValid := false, nextAction := "complete",
          errorMessage := some "All attendance records for today are complete. No further check-ins allowed.",
          cooldownRemaining := none, canProceed := false }
      else
        { isValid := false, nextAction := "unknown",
          errorMessage := some "Unable to determine next action. Please contact administrator.",
          cooldownRemaining := none, canProceed := false }

/-- The data-model invariant of the spec restricted to shape: a phase
timestamp is only set once all earlier phases are set (records are created
with `first_check_in` and mutated one phase at a time). -/
def WellFormed (a : AttendanceRecord) : Prop :=
  (a.first_check_out.isSome → a.first_check_in.isSome) ∧
  (a.second_check_in.isSome → a.first_check_out.isSome) ∧
  (a.second_check_out.isSome → a.second_check_in.isSome)

/-- The process-local scan cache `code → lastSeenEpochMillis`
(a JavaScript object, line 45 / ref `lastScanRef`, line 1258). -/
abbrev ScanCache : Type := List (String × Int)

/-- Reading `scanCache[qrCode]`: `none` models `undefined`. -/
def cacheLookup (cache : ScanCache) (code : String) : Option Int :=
  List.lookup code cache

/-- `setScanCache(prev => ({ ...prev, [qrCode]: now }))` (line 467) /
`lastScanRef.current[qrData] = Date.now()` (line 1330): the entry for
`code` now reads `now`. -/
def cacheInsert (cache : ScanCache) (code : String) (now : Int) : ScanCache :=
  (code, now) :: cache

/-- The duplicate-scan guard of `handleScanResult` (line 461):
`scanCache[qrCode] && (now - scanCache[qrCode]) < SCAN_COOLDOWN`.
A cached value participates in the comparison only when truthy, i.e.
a nonzero number. -/
def dedupSuppressed (cache : ScanCache) (code : String) (now : Int) : Bool :=
  match cacheLookup cache code with
  | some t => t != 0 && decide (now - t < SCAN_COOLDOWN)
  | none => false

/-- `isRecentlySeen` of the fallback implementation (lines 1622-1625):
`Boolean(lastScan) && (Date.now() - lastScan) < COOLDOWN_PERIODS.SCAN`. -/
def isRecentlySeen (lastScanMap : ScanCache) (qrCode : String) (now : Int) : Bool :=
  match cacheLookup lastScanMap qrCode with
  | some lastScan => lastScan != 0 && decide (now - lastScan < SCAN_COOLDOWN)
  | none => false

/-- `calculateTotalHours` (lines 705-715): each session in hours as a real
quotient, their sum rounded to 2 decimals with `Math.round(x * 100) / 100`
(`Math.round` is `round`, half towards positive infinity). -/
def calculateTotalHours (attendance : AttendanceRecord) (secondCheckOut : Int) : Rat :=
  let firstIn := attendance.first_check_in.getD 0
  let firstOut := attendance.first_check_out.getD 0
  let secondIn := attendance.second_check_in.getD 0
  let morning : Rat := ((firstOut - firstIn : Int) : Rat) / (1000 * 60 * 60)
  let afternoon : Rat := ((secondCheckOut - secondIn : Int) : Rat) / (1000 * 60 * 60)
  ((round ((morning + afternoon) * 100) : Int) : Rat) / 100

/-- The spec's formula for the derived total, for refinement comparison:
"sum of (firstOut−firstIn) and (secondOut−secondIn), in hours, rounded to
2 decimals". -/
def totalHoursSpec (firstIn firstOut secondIn secondOut : Int) : Rat :=
  ((round ((((firstOut - firstIn) + (secondOut - secondIn) : Int) : Rat)
      / (1000 * 60 * 60) * 100) : Int) : Rat) / 100

/-- The columns written by one store update.  A `none` field is not part
of the update. -/
structure UpdateData where
  first_check_in : Option Int
  first_check_out : Option Int
  second_check_in : Option Int
  second_check_out : Option Int
  total_hours : Option Rat
  is_late : Option Bool
  deriving Repr, DecidableEq

/-- The update that writes nothing. -/
def emptyUpdate : UpdateData :=
  { first_check_in := none, first_check_out := none, second_check_in := none,
    second_check_out := none, total_hours := none, is_late := none }

/-- The `switch (action)` of the primary `processAttendance`
(lines 641-654), producing the columns of the store update. -/
def processAttendanceUpdate (attendance : AttendanceRecord) (action : String)
    (now : Int) : Except String UpdateData :=
  if action = "first_check_out" then
    .ok { emptyUpdate with first_check_out := some now }
  else if action = "second_check_in" then
    .ok { emptyUpdate with second_check_in := some now }
  else if action = "second_check_out" then
    .ok { emptyUpdate with
          second_check_out := some now
          total_hours := some (calculateTotalHours attendance now) }
  else
    .error s!"Invalid action: {action}"

/-- `calculateHours` of the fallback implementation (lines 1471-1473):
`Number(((end - start) / 3600000).toFixed(2))`, i.e. the quotient rounded
to 2 decimals (for the nonnegative durations arising here `toFixed`
rounds half up, as `round` does). -/
def calculateHours (startTime endTime : Int) : Rat :=
  ((round (((endTime - startTime : Int) : Rat) / (1000 * 60 * 60) * 100) : Int) : Rat) / 100

/-- The fallback `processAttendance` update computation (lines 1383-1427):
creation writes `first_check_in`, `is_late` and `total_hours = 0`; a first
check-out is guarded by a 3-minute minimum since first check-in and writes
a single-session `total_hours`; a second check-out writes the sum of the
two separately rounded sessions.  `late` is the result of the `isLate`
settings lookup. -/
def processAttendanceImpl2 (existingRecord : Option AttendanceRecord) (now : Int)
    (late : Bool) : Except String UpdateData :=
  match existingRecord with
  | none =>
      .ok { emptyUpdate with
            first_check_in := some now
            is_late := some late
            total_hours := some 0 }
  | some r =>
      if !r.first_check_out.isSome then
        let firstCheckInTime := r.first_check_in.getD 0
        let timeDifference := now - firstCheckInTime
        if timeDifference < CHECKIN_TO_CHECKOUT_COOLDOWN then
          .error "Please wait at least 3 minutes between first check-in and first check-out"
        else
          .ok { emptyUpdate with
                first_check_out := some now
                total_hours := some (calculateHours firstCheckInTime now) }
      else if !r.second_check_in.isSome then
        .ok { emptyUpdate with second_check_in := some now }
      else if !r.second_check_out.isSome then
        .ok { emptyUpdate with
              second_check_out := some now
              total_hours := some
                (calculateHours (r.first_check_in.getD 0) (r.first_check_out.getD 0)
                  + calculateHours (r.second_check_in.getD 0) now) }
      else
        .error "All check-ins and check-outs are completed for today"

/-- An employee row as returned by the
`.eq('qr_code', qrCode).eq('is_active', true).single()` query; an unknown
or inactive code yields no row. -/
structure Employee where
  id : String
  deriving Repr, DecidableEq

/-- Observable side effects of one scan, in program order. -/
inductive Event where
  | cacheWrite (code : String) (time : Int)
  | feedbackSuccess
  | feedbackError
  | employeeLookup (code : String)
  | storeInsert (first_check_in : Int) (late : Bool)
  | storeUpdate (u : UpdateData)
  | timingError (message : String)
  deriving Repr, DecidableEq

/-- Store mutations among the events. -/
def isStoreMutation : Event → Bool
  | .storeInsert _ _ => true
  | .storeUpdate _ => true
  | _ => false

/-- Effects of the primary `processAttendance` (lines 606-674): a second
store read `fetch2`, then either the insert of a fresh record (first
check-in) or the update computed by `processAttendanceUpdate`.  The `Bool`
is `false` when the function throws. -/
def processAttendance (fetch2 : Except Unit (Option AttendanceRecord))
    (action : String) (now : Int) (late : Bool) : List Event × Bool :=
  match fetch2 with
  | .error _ => ([], false)
  | .ok none =>
      if action = "first_check_in" then ([Event.storeInsert now late], true)
      else ([], false)
  | .ok (some a) =>
      match processAttendanceUpdate a action now with
      | .ok u => ([Event.storeUpdate u], true)
      | .error _ => ([], false)

/-- `handleScanResult` (lines 449-531) as a trace of events plus the new
scan cache: the dedup gate, the write-before-process cache update, the
immediate success feedback, the online check, the employee lookup
(`employee` is the query result), sequence validation against the store
read `fetchResult`, and either the timing-error path or
`processAttendance` over the second store read `fetch2`; every thrown
error ends in the error feedback of the `catch` block. -/
def handleScanResult (cache : ScanCache) (qrCode : String) (now : Int)
    (isOnline : Bool) (employee : Option Employee)
    (fetchResult fetch2 : Except Unit (Option AttendanceRecord)) (late : Bool) :
    List Event × ScanCache :=
  if dedupSuppressed cache qrCode now then ([], cache)
  else
    let cache1 := cacheInsert cache qrCode now
    let evs := [Event.cacheWrite qrCode now, Event.feedbackSuccess]
    if !isOnline then (evs ++ [Event.feedbackError], cache1)
    else
      let evs2 := evs ++ [Event.employeeLookup qrCode]
      match employee with
      | none => (evs2 ++ [Event.feedbackError], cache1)
      | some _ =>
        let v := validateAttendanceSequence fetchResult now
        if v.canProceed = false then
          (evs2 ++ [Event.timingError (v.errorMessage.getD "")], cache1)
        else
          match processAttendance fetch2 v.nextAction now late with
          | (pevs, true) => (evs2 ++ pevs, cache1)
          | (pevs, false) => (evs2 ++ pevs ++ [Event.feedbackError], cache1)

/-- Feedback kinds accepted by `FeedbackSystem.provideFeedback`. -/
inductive FeedbackKind where
  | success
  | error
  | warning
  deriving Repr, DecidableEq

/-- The mutable state of the `FeedbackSystem` singleton (part of the
guidance module): `lastFeedbackTime`, initially `0`, and
`feedbackCooldown`, initially `2000` ms. -/
structure FeedbackSystemState where
  lastFeedbackTime : Int
  feedbackCooldown : Int
  deriving Repr, DecidableEq

/-- Channel side effects of the feedback system. -/
inductive FeedbackChannel where
  | teakSound
  | vibrate (pattern : List Nat)
  | visualConfirmation
  deriving Repr, DecidableEq

namespace FeedbackSystem

/-- `FeedbackSystem.provideFeedback` (guidance module, lines 352-387): a
call within `feedbackCooldown` of the last dispatched call is a silent
no-op; otherwise `lastFeedbackTime` is set to `now` and the kind-specific
channels fire (`success`: teak sound, haptic `[100,50,100]`, and the
visual confirmation when an element was passed; `error`: haptic
`[100,50,100]` then `[200,100,200,100,200]`; `warning`: haptic `[150]`). -/
def provideFeedback (s : FeedbackSystemState) (kind : FeedbackKind) (now : Int)
    (hasElement : Bool) : FeedbackSystemState × List FeedbackChannel :=
  if now - s.lastFeedbackTime < s.feedbackCooldown then (s, [])
  else
    let s1 : FeedbackSystemState := ⟨now, s.feedbackCooldown⟩
    match kind with
    | .success =>
        (s1, [FeedbackChannel.teakSound, FeedbackChannel.vibrate [100, 50, 100]]
          ++ (if hasElement then [FeedbackChannel.visualConfirmation] else []))
    | .error =>
        (s1, [FeedbackChannel.vibrate [100, 50, 100],
              FeedbackChannel.vibrate [200, 100, 200, 100, 200]])
    | .warning => (s1, [FeedbackChannel.vibrate [150]])

end FeedbackSystem

/-- One tick of the light-monitoring interval (lines 283-286) together
with `enableFlash` (lines 812-826): when the sampled level is below
`MIN_LIGHT_LEVEL` and the flash is off, `enableFlash` runs and sets
`flashEnabled` to `true`.  Result: new flash state, and whether the
flash-enable action was performed on this sample. -/
def lightMonitorStep (flashEnabled : Bool) (lightLevel : Rat) : Bool × Bool :=
  if lightLevel < MIN_LIGHT_LEVEL ∧ flashEnabled = false then (true, true)
  else (flashEnabled, false)

/-- A run of the 2-second sampling loop over a list of brightness levels:
final flash state and the number of flash-enable actions performed. -/
def lightMonitorRun (flashEnabled : Bool) (levels : List Rat) : Bool × Nat :=
  match levels with
  | [] => (flashEnabled, 0)
  | l :: rest =>
      let s := lightMonitorStep flashEnabled l
      let r := lightMonitorRun s.1 rest
      (r.1, (if s.2 then 1 else 0) + r.2)


deriving instance DecidableEq for Except

/-! ## Helper lemmas -/

theorem lightMonitorStep_true (l : Rat) : lightMonitorStep true l = (true, false) := by
  simp [lightMonitorStep]

theorem lightMonitorRun_true (levels : List Rat) : lightMonitorRun true levels = (true, 0) := by
  induction levels with
  | nil => rfl
  | cons l rest ih => simp [lightMonitorRun, lightMonitorStep_true, ih]

theorem lightMonitorRun_count_le_one (b : Bool) (levels : List Rat) :
    (lightMonitorRun b levels).2 ≤ 1 := by
  induction levels generalizing b with
  | nil => cases b <;> simp [lightMonitorRun]
  | cons l rest ih =>
    cases b with
    | true => simp [lightMonitorRun_true]
    | false =>
      by_cases hl : l < MIN_LIGHT_LEVEL
      · simp [lightMonitorRun, lightMonitorStep, hl, lightMonitorRun_true]
      · simpa [lightMonitorRun, lightMonitorStep, hl] using ih false

/-! ## Claim theorems -/

/-- C1: with `firstOut` set and `secondIn` null, a scan inside the 3-minute
checkout-to-checkin cooldown is rejected with
`cooldownRemaining = 3min − (now − firstOut)`, which decreases strictly
across repeated attempts, and a scan at or past the cooldown is accepted
with next action `second_check_in`. -/
theorem checkout_to_checkin_cooldown (a : AttendanceRecord) (fo now : Int)
    (hwf : WellFormed a) (hfo : a.first_check_out = some fo)
    (hsi : a.second_check_in = none) :
    (now - fo < CHECKOUT_TO_CHECKIN_COOLDOWN →
      validateAttendanceSequence (.ok (some a)) now =
        { isValid := false, nextAction := "second_check_in",
          errorMessage := some (cooldownMessage (CHECKOUT_TO_CHECKIN_COOLDOWN - (now - fo))),
          cooldownRemaining := some (CHECKOUT_TO_CHECKIN_COOLDOWN - (now - fo)),
          canProceed := false }) ∧
    (CHECKOUT_TO_CHECKIN_COOLDOWN ≤ now - fo →
      validateAttendanceSequence (.ok (some a)) now =
        { isValid := true, nextAction := "second_check_in", errorMessage := none,
          cooldownRemaining := none, canProceed := true }) ∧
    (∀ n1 n2 r1 r2, n1 < n2 →
      (validateAttendanceSequence (.ok (some a)) n1).cooldownRemaining = some r1 →
      (validateAttendanceSequence (.ok (some a)) n2).cooldownRemaining = some r2 →
      r2 < r1) := by
  have hfi : a.first_check_in.isSome := hwf.1 (by rw [hfo]; rfl)
  have key : ∀ n, validateAttendanceSequence (.ok (some a)) n =
      if n - fo < CHECKOUT_TO_CHECKIN_COOLDOWN then
        { isValid := false, nextAction := "second_check_in",
          errorMessage := some (cooldownMessage (CHECKOUT_TO_CHECKIN_COOLDOWN - (n - fo))),
          cooldownRemaining := some (CHECKOUT_TO_CHECKIN_COOLDOWN - (n - fo)),
          canProceed := false }
      else
        { isValid := true, nextAction := "second_check_in", errorMessage := none,
          cooldownRemaining := none, canProceed := true } := by
    intro n
    simp [validateAttendanceSequence, hfo, hsi, hfi]
  refine ⟨?_, ?_, ?_⟩
  · intro h
    rw [key now, if_pos h]
  · intro h
    rw [key now, if_neg (by omega)]
  · intro n1 n2 r1 r2 hlt h1 h2
    rw [key n1] at h1
    rw [key n2] at h2
    by_cases hc1 : n1 - fo < CHECKOUT_TO_CHECKIN_COOLDOWN
    · rw [if_pos hc1] at h1
      by_cases hc2 : n2 - fo < CHECKOUT_TO_CHECKIN_COOLDOWN
      · rw [if_pos hc2] at h2
        simp only [Option.some.injEq] at h1 h2
        omega
      · rw [if_neg hc2] at h2
        simp at h2
    · rw [if_neg hc1] at h1
      simp at h1

theorem handleScanResult_not_suppressed (cache : ScanCache) (code : String) (now : Int)
    (isOnline : Bool) (employee : Option Employee)
    (fetchResult fetch2 : Except Unit (Option AttendanceRecord)) (late : Bool)
    (hns : dedupSuppressed cache code now = false) :
    ∃ rest, handleScanResult cache code now isOnline employee fetchResult fetch2 late =
      (Event.cacheWrite code now :: Event.feedbackSuccess :: rest,
        cacheInsert cache code now) := by
  unfold handleScanResult
  rw [hns]
  simp only [Bool.false_eq_true, if_false]
  cases isOnline with
  | false => exact ⟨[Event.feedbackError], rfl⟩
  | true =>
    cases employee with
    | none => exact ⟨[Event.employeeLookup code, Event.feedbackError], rfl⟩
    | some emp =>
      simp only
      by_cases hv : (validateAttendanceSequence fetchResult now).canProceed = false
      · rw [if_pos hv]
        exact ⟨[Event.employeeLookup code,
          Event.timingError ((validateAttendanceSequence fetchResult now).errorMessage.getD "")],
          rfl⟩
      · rw [if_neg hv]
        rcases hp : processAttendance fetch2 (validateAttendanceSequence fetchResult now).nextAction
            now late with ⟨pevs, b⟩
        cases b with
        | true => exact ⟨Event.employeeLookup code :: pevs, rfl⟩
        | false => exact ⟨Event.employeeLookup code :: (pevs ++ [Event.feedbackError]), by simp⟩

/-- C2 (counterexample): a scan of code `"EMP"` recorded in the cache at
time `t1 = 0` is not suppressed at `t2 = 1000` even though
`t2 − t1 < SCAN_COOLDOWN` — the JavaScript truthiness test
`scanCache[qrCode] && ...` treats the cached value `0` as absent — and the
scan is processed (its trace is non-empty). -/
theorem dedup_zero_entry_not_suppressed :
    cacheLookup [("EMP", 0)] "EMP" = some 0 ∧
    (0 : Int) < 1000 ∧ (1000 : Int) - 0 < SCAN_COOLDOWN ∧
    dedupSuppressed [("EMP", 0)] "EMP" 1000 = false ∧
    isRecentlySeen [("EMP", 0)] "EMP" 1000 = false ∧
    (handleScanResult [("EMP", 0)] "EMP" 1000 true none (.ok none) (.ok none) false).1 ≠ [] := by
  decide

/-- C2 (amended): a code recorded in the scan cache at a nonzero time `t1`
with `t2 − t1 < SCAN_COOLDOWN` is suppressed at `t2` by both
deduplicators and its scan produces no processing; a code absent from the
cache, or whose recorded time is at least `SCAN_COOLDOWN` old, is accepted
and its cache entry is set to the acceptance time as the first effect of
the scan. -/
theorem dedup_cooldown_suppresses (cache : ScanCache) (code : String) (t1 t2 : Int)
    (hrec : cacheLookup cache code = some t1) (h0 : t1 ≠ 0) (hlt : t1 < t2)
    (hwin : t2 - t1 < SCAN_COOLDOWN) :
    dedupSuppressed cache code t2 = true ∧
    isRecentlySeen cache code t2 = true ∧
    (∀ isOnline employee fetchResult fetch2 late,
      handleScanResult cache code t2 isOnline employee fetchResult fetch2 late = ([], cache)) ∧
    (∀ (cache' : ScanCache) (c' : String) (t' : Int),
      (cacheLookup cache' c' = none ∨
        ∃ t0, cacheLookup cache' c' = some t0 ∧ SCAN_COOLDOWN ≤ t' - t0) →
      dedupSuppressed cache' c' t' = false ∧
      ∀ isOnline employee fetchResult fetch2 late,
        (handleScanResult cache' c' t' isOnline employee fetchResult fetch2 late).1.head? =
          some (Event.cacheWrite c' t') ∧
        cacheLookup (handleScanResult cache' c' t' isOnline employee fetchResult fetch2 late).2 c'
          = some t') := by
  have hsup : dedupSuppressed cache code t2 = true := by
    simp [dedupSuppressed, hrec, h0, hwin]
  have hrec2 : isRecentlySeen cache code t2 = true := by
    simp [isRecentlySeen, hrec, h0, hwin]
  refine ⟨hsup, hrec2, ?_, ?_⟩
  · intro isOnline employee fetchResult fetch2 late
    simp [handleScanResult, hsup]
  · intro cache' c' t' hacc
    have hns : dedupSuppressed cache' c' t' = false := by
      rcases hacc with h | ⟨t0, ht0, hold⟩
      · simp [dedupSuppressed, h]
      · simp [dedupSuppressed, ht0]
        intro _
        omega
    refine ⟨hns, ?_⟩
    intro isOnline employee fetchResult fetch2 late
    have hins : cacheLookup (cacheInsert cache' c' t') c' = some t' := by
      simp [cacheLookup, cacheInsert]
    obtain ⟨rest, hshape⟩ := handleScanResult_not_suppressed cache' c' t' isOnline employee
      fetchResult fetch2 late hns
    rw [hshape]
    exact ⟨rfl, hins⟩

/-- C3 (amended): in the primary scanner, an accepted update carries
`total_hours` exactly when the action is the second check-out, and then it
equals the spec's two-session sum rounded to 2 decimals; the fallback
scanner additionally writes `total_hours` at record creation and at first
check-out (see the counterexample). -/
theorem totalHours_two_sessions (a : AttendanceRecord) (action : String) (now : Int)
    (u : UpdateData) (h : processAttendanceUpdate a action now = .ok u) :
    (u.total_hours.isSome ↔ action = "second_check_out") ∧
    (∀ fi fo si, a.first_check_in = some fi → a.first_check_out = some fo →
      a.second_check_in = some si → action = "second_check_out" →
      u.total_hours = some (totalHoursSpec fi fo si now)) := by
  unfold processAttendanceUpdate at h
  by_cases h1 : action = "first_check_out"
  · rw [if_pos h1] at h
    obtain rfl : { emptyUpdate with first_check_out := some now } = u := by
      simpa using h
    subst h1
    refine ⟨by simp [emptyUpdate], ?_⟩
    intro fi fo si _ _ _ hact
    exact absurd hact (by decide)
  · rw [if_neg h1] at h
    by_cases h2 : action = "second_check_in"
    · rw [if_pos h2] at h
      obtain rfl : { emptyUpdate with second_check_in := some now } = u := by
        simpa using h
      subst h2
      refine ⟨by simp [emptyUpdate], ?_⟩
      intro fi fo si _ _ _ hact
      exact absurd hact (by decide)
    · rw [if_neg h2] at h
      by_cases h3 : action = "second_check_out"
      · rw [if_pos h3] at h
        obtain rfl :
            { emptyUpdate with
              second_check_out := some now
              total_hours := some (calculateTotalHours a now) } = u := by
          simpa using h
        subst h3
        refine ⟨by simp [emptyUpdate], ?_⟩
        intro fi fo si hfi hfo hsi _
        simp only [emptyUpdate, Option.some.injEq]
        unfold calculateTotalHours totalHoursSpec
        rw [hfi, hfo, hsi]
        simp only [Option.getD_some]
        congr 2
        push_cast
        ring_nf
      · rw [if_neg h3] at h
        exact absurd h (by simp)

/-- C3 (counterexample): the fallback scanner writes `total_hours` from
partial data: at first check-out it stores the single first session
(here 0.05 h for a 3-minute session) with `second_check_out` still null,
and at record creation it stores `0`. -/
theorem totalHours_written_from_partial_data :
    processAttendanceImpl2 (some ⟨some 0, none, none, none, none⟩) 180000 false =
      .ok { emptyUpdate with first_check_out := some 180000, total_hours := some (1/20) } ∧
    processAttendanceImpl2 none 5 false =
      .ok { emptyUpdate with
            first_check_in := some 5
            is_late := some false
            total_hours := some 0 } := by
  constructor
  · have h : calculateHours 0 180000 = 1/20 := by
      norm_num [calculateHours, round_eq]
    simp [processAttendanceImpl2, CHECKIN_TO_CHECKOUT_COOLDOWN, h]
  · simp [processAttendanceImpl2]

/-- C4: a transient store failure during validation yields a rejection
carrying the generic retry message, and the scan's trace contains no store
mutation — the attendance record is untouched and the state machine does
not advance. -/
theorem transient_store_error_no_mutation (cache : ScanCache) (qrCode : String)
    (now : Int) (emp : Employee) (fetch2 : Except Unit (Option AttendanceRecord))
    (late : Bool) (hd : dedupSuppressed cache qrCode now = false) :
    validateAttendanceSequence (.error ()) now =
      { isValid := false, nextAction := "error",
        errorMessage := some "Error validating attendance. Please try again.",
        cooldownRemaining := none, canProceed := false } ∧
    (handleScanResult cache qrCode now true (some emp) (.error ()) fetch2 late).1 =
      [Event.cacheWrite qrCode now, Event.feedbackSuccess, Event.employeeLookup qrCode,
        Event.timingError "Error validating attendance. Please try again."] ∧
    (handleScanResult cache qrCode now true (some emp) (.error ()) fetch2 late).1.all
      (fun e => !isStoreMutation e) = true := by
  have htrace : (handleScanResult cache qrCode now true (some emp) (.error ()) fetch2 late).1 =
      [Event.cacheWrite qrCode now, Event.feedbackSuccess, Event.employeeLookup qrCode,
        Event.timingError "Error validating attendance. Please try again."] := by
    unfold handleScanResult
    rw [hd]
    simp [validateAttendanceSequence]
  refine ⟨rfl, htrace, ?_⟩
  rw [htrace]
  rfl

/-- C5: once `secondOut` is set on a well-formed daily record, every
further scan of that employee that day is rejected as complete, at any
time `now`, and its trace contains no store mutation. -/
theorem day_complete_always_rejected (a : AttendanceRecord) (now : Int)
    (cache : ScanCache) (qrCode : String) (emp : Employee)
    (fetch2 : Except Unit (Option AttendanceRecord)) (late : Bool)
    (hwf : WellFormed a) (hso : a.second_check_out.isSome)
    (hd : dedupSuppressed cache qrCode now = false) :
    validateAttendanceSequence (.ok (some a)) now =
      { isValid := false, nextAction := "complete",
        errorMessage := some "All attendance records for today are complete. No further check-ins allowed.",
        cooldownRemaining := none, canProceed := false } ∧
    (handleScanResult cache qrCode now true (some emp) (.ok (some a)) fetch2 late).1 =
      [Event.cacheWrite qrCode now, Event.feedbackSuccess, Event.employeeLookup qrCode,
        Event.timingError "All attendance records for today are complete. No further check-ins allowed."] ∧
    (handleScanResult cache qrCode now true (some emp) (.ok (some a)) fetch2 late).1.all
      (fun e => !isStoreMutation e) = true := by
  have hsi : a.second_check_in.isSome := hwf.2.2 hso
  have hfo : a.first_check_out.isSome := hwf.2.1 hsi
  have hfi : a.first_check_in.isSome := hwf.1 hfo
  have hval : validateAttendanceSequence (.ok (some a)) now =
      { isValid := false, nextAction := "complete",
        errorMessage := some "All attendance records for today are complete. No further check-ins allowed.",
        cooldownRemaining := none, canProceed := false } := by
    obtain ⟨sov, hsov⟩ := Option.isSome_iff_exists.mp hso
    obtain ⟨siv, hsiv⟩ := Option.isSome_iff_exists.mp hsi
    obtain ⟨fov, hfov⟩ := Option.isSome_iff_exists.mp hfo
    obtain ⟨fiv, hfiv⟩ := Option.isSome_iff_exists.mp hfi
    simp [validateAttendanceSequence, hsov, hsiv, hfov, hfiv]
  have htrace : (handleScanResult cache qrCode now true (some emp) (.ok (some a)) fetch2 late).1 =
      [Event.cacheWrite qrCode now, Event.feedbackSuccess, Event.employeeLookup qrCode,
        Event.timingError "All attendance records for today are complete. No further check-ins allowed."] := by
    unfold handleScanResult
    rw [hd]
    simp [hval]
  refine ⟨hval, htrace, ?_⟩
  rw [htrace]
  rfl

/-- C10 (implicit): after the deduplication gate, the cache write and the
success feedback are the first two effects of every scan — before the
employee is resolved and before the sequence is validated; an unknown or
inactive code therefore produces the success feedback first and the error
feedback afterwards, and its (nonzero-time) cache entry suppresses
re-scans of the code within the next `SCAN_COOLDOWN`. -/
theorem success_feedback_before_resolution (cache : ScanCache) (qrCode : String)
    (now : Int) (fetchResult fetch2 : Except Unit (Option AttendanceRecord))
    (late : Bool) (hd : dedupSuppressed cache qrCode now = false) :
    (∀ isOnline employee,
      (handleScanResult cache qrCode now isOnline employee fetchResult fetch2 late).1.take 2 =
        [Event.cacheWrite qrCode now, Event.feedbackSuccess]) ∧
    handleScanResult cache qrCode now true none fetchResult fetch2 late =
      ([Event.cacheWrite qrCode now, Event.feedbackSuccess, Event.employeeLookup qrCode,
        Event.feedbackError], cacheInsert cache qrCode now) ∧
    cacheLookup (cacheInsert cache qrCode now) qrCode = some now ∧
    (∀ t', 0 < now → now ≤ t' → t' - now < SCAN_COOLDOWN →
      dedupSuppressed (cacheInsert cache qrCode now) qrCode t' = true) := by
  refine ⟨?_, ?_, ?_, ?_⟩
  · intro isOnline employee
    obtain ⟨rest, hshape⟩ := handleScanResult_not_suppressed cache qrCode now isOnline employee
      fetchResult fetch2 late hd
    rw [hshape]
    rfl
  · unfold handleScanResult
    rw [hd]
    rfl
  · simp [cacheLookup, cacheInsert]
  · intro t' hpos hle hwin
    have hlook : cacheLookup (cacheInsert cache qrCode now) qrCode = some now := by
      simp [cacheLookup, cacheInsert]
    simp [dedupSuppressed, hlook, hwin]
    omega

/-- C6: the feedback dispatcher's cooldown is global across kinds — if a
call at `t1` dispatched (under the default 2000 ms cooldown) then any call
at `t2` with `t2 − t1 < 2000`, of any kind, is a silent no-op: it produces
no channel side effects and leaves the state unchanged. -/
theorem feedback_global_cooldown (s : FeedbackSystemState) (k1 k2 : FeedbackKind)
    (t1 t2 : Int) (e1 e2 : Bool)
    (hdefault : s.feedbackCooldown = 2000)
    (hdisp : ¬ t1 - s.lastFeedbackTime < s.feedbackCooldown)
    (hlt : t1 < t2) (hwin : t2 - t1 < 2000) :
    (FeedbackSystem.provideFeedback s k1 t1 e1).2 ≠ [] ∧
    FeedbackSystem.provideFeedback (FeedbackSystem.provideFeedback s k1 t1 e1).1 k2 t2 e2 =
      ((FeedbackSystem.provideFeedback s k1 t1 e1).1, []) := by
  have h1 : (FeedbackSystem.provideFeedback s k1 t1 e1).1 = ⟨t1, s.feedbackCooldown⟩ := by
    unfold FeedbackSystem.provideFeedback
    rw [if_neg hdisp]
    cases k1 <;> cases e1 <;> rfl
  constructor
  · unfold FeedbackSystem.provideFeedback
    rw [if_neg hdisp]
    cases k1 <;> cases e1 <;> simp
  · rw [h1]
    unfold FeedbackSystem.provideFeedback
    rw [if_pos (show t2 - (⟨t1, s.feedbackCooldown⟩ : FeedbackSystemState).lastFeedbackTime <
      (⟨t1, s.feedbackCooldown⟩ : FeedbackSystemState).feedbackCooldown by simp; omega)]

/-- C7: at `cooldownRemaining = 179000` ms (2 minutes 59 seconds), the
rejection message reads "3m 59s": the code computes the minutes with
`Math.ceil`, so the displayed time overstates the true remainder by nearly
a minute whenever the remainder is not a whole number of minutes.  The
displayed pair here totals 239 s, the true remainder 179 s. -/
theorem cooldown_message_overstates_minutes :
    validateAttendanceSequence (.ok (some ⟨some 0, some 10000, none, none, none⟩)) 11000 =
      { isValid := false, nextAction := "second_check_in",
        errorMessage := some "Cooldown period active. Please wait 3m 59s before checking in again.",
        cooldownRemaining := some 179000, canProceed := false } ∧
    cooldownMessage 179000 = "Cooldown period active. Please wait 3m 59s before checking in again." ∧
    ceilDiv 179000 (60 * 1000) = 3 ∧
    ceilDiv ((179000 : Int).emod (60 * 1000)) 1000 = 59 ∧
    (179000 : Int) = (2 * 60 + 59) * 1000 ∧
    (3 * 60 + 59 : Int) ≠ 179000 / 1000 := by
  decide

/-- C8 (amended): the primary scanner's sequencer accepts a first
check-out at any time after first check-in, with no minimum-duration
guard; the fallback scanner, by contrast, rejects a first check-out less
than 3 minutes after first check-in and only accepts it from 3 minutes
on. -/
theorem first_checkout_guard_divergence (a : AttendanceRecord) (fi now : Int)
    (late : Bool) (hfi : a.first_check_in = some fi) (hfo : a.first_check_out = none) :
    validateAttendanceSequence (.ok (some a)) now =
      { isValid := true, nextAction := "first_check_out", errorMessage := none,
        cooldownRemaining := none, canProceed := true } ∧
    processAttendanceUpdate a "first_check_out" now =
      .ok { emptyUpdate with first_check_out := some now } ∧
    (now - fi < CHECKIN_TO_CHECKOUT_COOLDOWN →
      processAttendanceImpl2 (some a) now late =
        .error "Please wait at least 3 minutes between first check-in and first check-out") ∧
    (CHECKIN_TO_CHECKOUT_COOLDOWN ≤ now - fi →
      processAttendanceImpl2 (some a) now late =
        .ok { emptyUpdate with
              first_check_out := some now
              total_hours := some (calculateHours fi now) }) := by
  refine ⟨?_, ?_, ?_, ?_⟩
  · simp [validateAttendanceSequence, hfi, hfo]
  · rfl
  · intro h
    simp [processAttendanceImpl2, hfo, hfi, h]
  · intro h
    simp only [processAttendanceImpl2, hfo, hfi, Option.isSome_none, Bool.not_false,
      if_true, Option.getD_some]
    rw [if_neg (by omega)]

/-- C8 (counterexample): the fallback scanner rejects a first check-out
one second after first check-in, so a first check-out "immediately after
first check-in" is not accepted everywhere in this repository. -/
theorem immediate_first_checkout_rejected_by_fallback :
    processAttendanceImpl2 (some ⟨some 0, none, none, none, none⟩) 1000 false =
      .error "Please wait at least 3 minutes between first check-in and first check-out" := by
  decide

/-- C9: the autonomous flash enabling is idempotent: a sampling run that
starts with the flash already enabled performs no enable action at all,
any run performs the enable action at most once (the flash state can only
change from off to on), and a run over all-critical samples starting with
the flash off performs it exactly once. -/
theorem flash_enable_idempotent (b : Bool) (levels : List Rat) :
    lightMonitorRun true levels = (true, 0) ∧
    (lightMonitorRun b levels).2 ≤ 1 ∧
    (b = false → levels ≠ [] → (∀ l ∈ levels, l < MIN_LIGHT_LEVEL) →
      (lightMonitorRun b levels).2 = 1) := by
  refine ⟨lightMonitorRun_true levels, lightMonitorRun_count_le_one b levels, ?_⟩
  intro hb hne hdark
  subst hb
  cases levels with
  | nil => exact absurd rfl hne
  | cons l rest =>
    have hl : l < MIN_LIGHT_LEVEL := hdark l (by simp)
    simp [lightMonitorRun, lightMonitorStep, hl, lightMonitorRun_true]

/-! ## Witnesses -/

/-- C1 witness: record checked out at 10000 ms, scanned at 11000 ms. -/
theorem checkout_to_checkin_cooldown_witness :
    (validateAttendanceSequence (.ok (some ⟨some 0, some 10000, none, none, none⟩))
      11000).cooldownRemaining = some 179000 := by
  have h := (checkout_to_checkin_cooldown ⟨some 0, some 10000, none, none, none⟩ 10000 11000
    ⟨fun _ => rfl, fun _ => rfl, fun hx => nomatch hx⟩ rfl rfl).1 (by decide)
  rw [h]
  norm_num [CHECKOUT_TO_CHECKIN_COOLDOWN]

/-- C2 witness: code recorded at 100 ms, scanned again at 1000 ms. -/
theorem dedup_cooldown_suppresses_witness :
    dedupSuppressed [("EMP", 100)] "EMP" 1000 = true ∧
    isRecentlySeen [("EMP", 100)] "EMP" 1000 = true := by
  have h := dedup_cooldown_suppresses [("EMP", 100)] "EMP" 100 1000 rfl
    (by decide) (by decide) (by decide)
  exact ⟨h.1, h.2.1⟩

/-- C3 witness: sessions 0→3600000 and 7200000→10800000 (1 h each). -/
theorem totalHours_two_sessions_witness :
    ({ emptyUpdate with
       second_check_out := some 10800000
       total_hours := some
         (calculateTotalHours ⟨some 0, some 3600000, some 7200000, none, none⟩ 10800000) } :
       UpdateData).total_hours = some (totalHoursSpec 0 3600000 7200000 10800000) :=
  (totalHours_two_sessions ⟨some 0, some 3600000, some 7200000, none, none⟩
    "second_check_out" 10800000 _ rfl).2 0 3600000 7200000 rfl rfl rfl rfl

/-- C4 witness: empty cache, store read fails. -/
theorem transient_store_error_no_mutation_witness :
    (handleScanResult [] "EMP" 1 true (some ⟨"e1"⟩) (.error ()) (.ok none) false).1.all
      (fun e => !isStoreMutation e) = true :=
  (transient_store_error_no_mutation [] "EMP" 1 ⟨"e1"⟩ (.ok none) false rfl).2.2

/-- C5 witness: a fully completed record scanned much later. -/
theorem day_complete_always_rejected_witness :
    validateAttendanceSequence (.ok (some ⟨some 0, some 1, some 2, some 3, none⟩)) 999999999 =
      { isValid := false, nextAction := "complete",
        errorMessage := some "All attendance records for today are complete. No further check-ins allowed.",
        cooldownRemaining := none, canProceed := false } :=
  (day_complete_always_rejected ⟨some 0, some 1, some 2, some 3, none⟩ 999999999 [] "EMP"
    ⟨"e1"⟩ (.ok none) false ⟨fun _ => rfl, fun _ => rfl, fun _ => rfl⟩ rfl rfl).1

/-- C6 witness: a success dispatch at 2000 ms silences an error call at
3000 ms. -/
theorem feedback_global_cooldown_witness :
    FeedbackSystem.provideFeedback
        (FeedbackSystem.provideFeedback ⟨0, 2000⟩ .success 2000 false).1 .error 3000 false =
      ((FeedbackSystem.provideFeedback ⟨0, 2000⟩ .success 2000 false).1, []) :=
  (feedback_global_cooldown ⟨0, 2000⟩ .success .error 2000 3000 false false rfl
    (by decide) (by decide) (by decide)).2

/-- C8 witness: the fallback scanner accepts the first check-out 200 s
after check-in. -/
theorem first_checkout_guard_divergence_witness :
    processAttendanceImpl2 (some ⟨some 0, none, none, none, none⟩) 200000 false =
      .ok { emptyUpdate with
            first_check_out := some 200000
            total_hours := some (calculateHours 0 200000) } :=
  (first_checkout_guard_divergence ⟨some 0, none, none, none, none⟩ 0 200000 false
    rfl rfl).2.2.2 (by decide)

/-- C9 witness: two consecutive critical samples from flash-off state
enable the flash exactly once. -/
theorem flash_enable_idempotent_witness :
    (lightMonitorRun false [1, 2]).2 = 1 :=
  (flash_enable_idempotent false [1, 2]).2.2 rfl (by simp)
    (by intro l hl; fin_cases hl <;> norm_num [MIN_LIGHT_LEVEL])

/-- C10 witness: a scan accepted at 5 ms suppresses a re-scan at 6 ms. -/
theorem success_feedback_before_resolution_witness :
    dedupSuppressed (cacheInsert [] "EMP" 5) "EMP" 6 = true :=
  (success_feedback_before_resolution [] "EMP" 5 (.ok none) (.ok none) false rfl).2.2.2 6
    (by decide) (by decide) (by decide)
